import Mathlib

/-!
Verification development for the Spark data-lake ETL script `etl.py`.

The script reads song-metadata and activity-log JSON records, projects them
into five star-schema tables (`songs`, `artists`, `users`, `time`,
`songplays`) and writes each table back to object storage with
overwrite mode.  The development below is a shallow embedding of that
script: records are Lean structures, dataframe operations are list
functions, the object store is an explicit `Store` structure, and the two
Spark analysis failures of the script (the SQL statement references temp
views that are never registered, and the configuration lookup indexes
configparser sections rather than values) are modelled explicitly.
-/

/-! ## Digits and fixed-width decimal rendering -/

/-- Decimal digit character of `d % 10` (the script renders datetimes through
the Python `str` rendering, which zero-pads each numeric field). -/
def charOfDigit (d : Nat) : Char := Nat.digitChar (d % 10)

/-- Decode a decimal digit character, `none` on anything else. -/
def decodeDigit (c : Char) : Option Nat :=
  if c.isDigit then some (c.toNat - 48) else none

/-- Two-digit zero-padded rendering, as Python formats month/day/etc. -/
def p2 (n : Nat) : List Char := [charOfDigit (n / 10), charOfDigit n]

/-- Four-digit zero-padded rendering of the year. -/
def render4 (n : Nat) : List Char :=
  [charOfDigit (n / 1000), charOfDigit (n / 100), charOfDigit (n / 10),
   charOfDigit n]

/-- Six-digit zero-padded rendering of the microsecond field. -/
def p6 (n : Nat) : List Char :=
  [charOfDigit (n / 100000), charOfDigit (n / 10000), charOfDigit (n / 1000),
   charOfDigit (n / 100), charOfDigit (n / 10), charOfDigit n]

/-! ## Calendar arithmetic -/

/-- Calendar instant, the value a Python `datetime` or a Spark SQL timestamp
denotes.  All times are modelled on one clock (the Python UDFs and
the SQL functions of the script both use one machine-local timezone; we model it
as UTC throughout). -/
structure DateTime where
  year : Nat
  month : Nat
  day : Nat
  hour : Nat
  minute : Nat
  second : Nat
  micros : Nat
deriving DecidableEq, Repr

/-- Number of days in calendar year `y` (Gregorian leap rule). -/
def daysInYearN (y : Nat) : Nat :=
  if (y % 4 = 0 ∧ y % 100 ≠ 0) ∨ y % 400 = 0 then 366 else 365

/-- Extra day a leap year contributes over 365. -/
def leapOffset (y : Nat) : Nat := daysInYearN y - 365

/-- Days from January 1 of proleptic year 0 to January 1 of year `y`. -/
def daysToYear (y : Nat) : Nat :=
  365 * y + (y + 3) / 4 - (y + 99) / 100 + (y + 399) / 400

/-- Walk forward one calendar year at a time from year `y`, consuming
`daysInYearN` days per step, until fewer than a full year of days remains; returns
the final year and the zero-based ordinal day within it.  `fuel` bounds the
recursion and is always given as at least the day count. -/
def yearDoyAux : Nat → Nat → Nat → Nat × Nat
  | 0, y, d => (y, d)
  | fuel + 1, y, d =>
    if d < daysInYearN y then (y, d)
    else yearDoyAux fuel (y + 1) (d - daysInYearN y)

/-- Year and zero-based day-of-year of a count of days since 1970-01-01. -/
def yearDoyOfDays (d : Nat) : Nat × Nat := yearDoyAux d 1970 d

/-- Month (1..12) containing the zero-based day-of-year `doy`, where `l` is
the leap-day offset of the year. -/
def monthOfDoy (l doy : Nat) : Nat :=
  if doy < 31 then 1
  else if doy < 59 + l then 2
  else if doy < 90 + l then 3
  else if doy < 120 + l then 4
  else if doy < 151 + l then 5
  else if doy < 181 + l then 6
  else if doy < 212 + l then 7
  else if doy < 243 + l then 8
  else if doy < 273 + l then 9
  else if doy < 304 + l then 10
  else if doy < 334 + l then 11
  else 12

/-- Day of the month (1..31) of the zero-based day-of-year `doy`. -/
def dayOfMonthOfDoy (l doy : Nat) : Nat :=
  if doy < 31 then doy + 1
  else if doy < 59 + l then doy - 31 + 1
  else if doy < 90 + l then doy - (59 + l) + 1
  else if doy < 120 + l then doy - (90 + l) + 1
  else if doy < 151 + l then doy - (120 + l) + 1
  else if doy < 181 + l then doy - (151 + l) + 1
  else if doy < 212 + l then doy - (181 + l) + 1
  else if doy < 243 + l then doy - (212 + l) + 1
  else if doy < 273 + l then doy - (243 + l) + 1
  else if doy < 304 + l then doy - (273 + l) + 1
  else if doy < 334 + l then doy - (304 + l) + 1
  else doy - (334 + l) + 1

/-- Calendar instant of a count of microseconds since the Unix epoch. -/
def dtOfMicros (mu : Nat) : DateTime :=
  let secs := mu / 1000000
  let days := secs / 86400
  let tod := secs % 86400
  let y := (yearDoyOfDays days).1
  let doy := (yearDoyOfDays days).2
  { year := y
  , month := monthOfDoy (leapOffset y) doy
  , day := dayOfMonthOfDoy (leapOffset y) doy
  , hour := tod / 3600
  , minute := tod % 3600 / 60
  , second := tod % 60
  , micros := mu % 1000000 }

/-- Calendar instant of an epoch-milliseconds value: the value
`datetime.fromtimestamp(ts / 1000.0)` denotes (the float division recovers
the exact milliseconds at these magnitudes). -/
def dtOfMillis (ts : Nat) : DateTime := dtOfMicros (ts * 1000)

/-- Days since the Unix epoch of a civil date (inverse direction, used only
to look up the weekday for the ISO week number). -/
def daysFromCivil (y m d : Nat) : Nat :=
  let yAdj := if m ≤ 2 then y - 1 else y
  let era := yAdj / 400
  let yoe := yAdj % 400
  let mp := (m + 9) % 12
  let doy := (153 * mp + 2) / 5 + d - 1
  let doe := yoe * 365 + yoe / 4 - yoe / 100 + doy
  era * 146097 + doe - 719468

/-- ISO weekday, Monday = 1 .. Sunday = 7 (1970-01-01 was a Thursday). -/
def isoDowOfDays (days : Nat) : Nat := (days + 3) % 7 + 1

/-- Weekday of December 31st of year `y`, used by the ISO week-count rule. -/
def pIso (y : Nat) : Nat := (y + y / 4 - y / 100 + y / 400) % 7

/-- Number of ISO weeks in year `y` (52 or 53). -/
def isoWeeksInYear (y : Nat) : Nat :=
  if pIso y = 4 ∨ pIso (y - 1) = 3 then 53 else 52

/-- Gregorian leap-year test. -/
def isLeap (y : Nat) : Bool := (y % 4 == 0 && y % 100 != 0) || y % 400 == 0

/-- Days strictly before month `m` in a non-leap year. -/
def cumDaysBeforeMonth : Nat → Nat
  | 1 => 0 | 2 => 31 | 3 => 59 | 4 => 90 | 5 => 120 | 6 => 151
  | 7 => 181 | 8 => 212 | 9 => 243 | 10 => 273 | 11 => 304 | 12 => 334
  | _ => 0

/-- One-based ordinal day of the year of a civil date. -/
def dayOfYear (y m d : Nat) : Nat :=
  cumDaysBeforeMonth m + (if isLeap y && decide (3 ≤ m) then 1 else 0) + d

/-- ISO-8601 week number of a calendar instant, the value the Spark
`weekofyear` function returns. -/
def isoWeekOfDT (dt : DateTime) : Nat :=
  let dow := isoDowOfDays (daysFromCivil dt.year dt.month dt.day)
  let w := (10 + dayOfYear dt.year dt.month dt.day - dow) / 7
  if w = 0 then isoWeeksInYear (dt.year - 1)
  else if isoWeeksInYear dt.year < w then 1 else w

/-! ## Datetime strings: the Python `str(datetime)` rendering and the Spark
string-to-timestamp cast -/

/-- The `YYYY-MM-DD HH:MM:SS` part shared by the Python rendering and the
Spark timestamp-to-string cast. -/
def renderBaseDT (dt : DateTime) : List Char :=
  render4 dt.year ++ '-' :: p2 dt.month ++ '-' :: p2 dt.day ++
    ' ' :: p2 dt.hour ++ ':' :: p2 dt.minute ++ ':' :: p2 dt.second

/-- Python `str(datetime)` rendering: base part plus a six-digit `.ffffff` fraction
whenever the microsecond field is nonzero. -/
def pyRenderDT (dt : DateTime) : List Char :=
  renderBaseDT dt ++ (if dt.micros = 0 then [] else '.' :: p6 dt.micros)

/-- The value the `get_datetime` UDF of the script
(`str(datetime.fromtimestamp(int(x) / 1000.0))`) produces for an
epoch-milliseconds value. -/
def pyGetDatetime (ts : Nat) : List Char := pyRenderDT (dtOfMillis ts)

/-- Drop trailing zero characters, as the Spark timestamp-to-string cast
trims the fractional part. -/
def dropTrailingZeros (l : List Char) : List Char :=
  (l.reverse.dropWhile (fun c => c == '0')).reverse

/-- Spark rendering of a SQL timestamp (microseconds since the epoch) as
a string: base part plus the fraction with trailing zeros trimmed. -/
def sparkTimestampToString (mu : Nat) : List Char :=
  let f := dropTrailingZeros (p6 (mu % 1000000))
  renderBaseDT (dtOfMicros mu) ++ (if f = [] then [] else '.' :: f)

/-- Fractional part accepted by the cast after the seconds field: either
nothing, or a dot followed by the six digits Python printed. -/
def parseFrac : List Char → Option Nat
  | [] => some 0
  | c :: rest =>
    if c = '.' then
      match rest with
      | [f5, f4, f3, f2, f1, f0] =>
        match decodeDigit f5, decodeDigit f4, decodeDigit f3,
              decodeDigit f2, decodeDigit f1, decodeDigit f0 with
        | some a, some b, some c2, some d, some e, some f =>
          some (a * 100000 + b * 10000 + c2 * 1000 + d * 100 + e * 10 + f)
        | _, _, _, _, _, _ => none
      | _ => none
    else none

/-- Spark cast of a datetime string back to a timestamp, on the
`YYYY-MM-DD HH:MM:SS[.ffffff]` layout the UDF emits; `none` models the
cast producing SQL NULL on a malformed string. -/
def parseDT : List Char → Option DateTime
  | c0 :: c1 :: c2 :: c3 :: s1 :: c4 :: c5 :: s2 :: c6 :: c7 :: s3 ::
      c8 :: c9 :: s4 :: c10 :: c11 :: s5 :: c12 :: c13 :: rest =>
    match decodeDigit c0, decodeDigit c1, decodeDigit c2, decodeDigit c3,
          decodeDigit c4, decodeDigit c5, decodeDigit c6, decodeDigit c7,
          decodeDigit c8, decodeDigit c9, decodeDigit c10, decodeDigit c11,
          decodeDigit c12, decodeDigit c13 with
    | some y3, some y2, some y1, some y0, some a1, some a0, some b1, some b0,
        some h1, some h0, some i1, some i0, some e1, some e0 =>
      if s1 = '-' ∧ s2 = '-' ∧ s3 = ' ' ∧ s4 = ':' ∧ s5 = ':' then
        match parseFrac rest with
        | some mu =>
          some { year := y3 * 1000 + y2 * 100 + y1 * 10 + y0
               , month := a1 * 10 + a0
               , day := b1 * 10 + b0
               , hour := h1 * 10 + h0
               , minute := i1 * 10 + i0
               , second := e1 * 10 + e0
               , micros := mu }
        | none => none
      else none
    | _, _, _, _, _, _, _, _, _, _, _, _, _, _ => none
  | _ => none

/-! ## Calendar bounds -/

theorem daysInYearN_bounds (y : Nat) :
    365 ≤ daysInYearN y ∧ daysInYearN y ≤ 366 := by
  unfold daysInYearN; split <;> omega

theorem daysInYearN_eq_leapOffset (y : Nat) :
    daysInYearN y = 365 + leapOffset y := by
  unfold leapOffset daysInYearN; split <;> omega

theorem leapOffset_le (y : Nat) : leapOffset y ≤ 1 := by
  unfold leapOffset daysInYearN; split <;> omega

set_option maxHeartbeats 1000000 in
theorem daysToYear_succ (y : Nat) :
    daysToYear (y + 1) = daysToYear y + daysInYearN y := by
  by_cases hc : (y % 4 = 0 ∧ y % 100 ≠ 0) ∨ y % 400 = 0
  · simp only [daysToYear, daysInYearN, if_pos hc]
    omega
  · simp only [daysToYear, daysInYearN, if_neg hc]
    push_neg at hc
    omega

theorem daysToYear_mono {y z : Nat} (h : y ≤ z) :
    daysToYear y ≤ daysToYear z := by
  have key : ∀ n, daysToYear y ≤ daysToYear (y + n) := by
    intro n
    induction n with
    | zero => simp
    | succ k ih =>
      have h1 := daysToYear_succ (y + k)
      have h2 := daysInYearN_bounds (y + k)
      have h3 : y + (k + 1) = (y + k) + 1 := by omega
      rw [h3, h1]
      omega
  have hk := key (z - y)
  have hz : y + (z - y) = z := by omega
  rwa [hz] at hk

theorem yearDoyAux_doy_lt :
    ∀ fuel y d, d ≤ fuel + 364 →
      (yearDoyAux fuel y d).2 < daysInYearN (yearDoyAux fuel y d).1 := by
  intro fuel
  induction fuel with
  | zero =>
    intro y d h
    simp only [yearDoyAux]
    have := daysInYearN_bounds y
    omega
  | succ n ih =>
    intro y d h
    simp only [yearDoyAux]
    split
    · simpa using ‹d < daysInYearN y›
    · apply ih
      have := daysInYearN_bounds y
      omega

theorem yearDoyAux_sum :
    ∀ fuel y d,
      daysToYear (yearDoyAux fuel y d).1 + (yearDoyAux fuel y d).2 =
        daysToYear y + d := by
  intro fuel
  induction fuel with
  | zero => intro y d; simp [yearDoyAux]
  | succ n ih =>
    intro y d
    simp only [yearDoyAux]
    split
    · simp
    · rw [ih (y + 1) (d - daysInYearN y), daysToYear_succ]
      have := daysInYearN_bounds y
      omega

theorem yearDoyOfDays_year_lt (d : Nat) (h : d ≤ 2932896) :
    (yearDoyOfDays d).1 < 10000 := by
  unfold yearDoyOfDays
  by_contra h10
  push_neg at h10
  have hsum := yearDoyAux_sum d 1970 d
  have hmono := daysToYear_mono h10
  have h1970 : daysToYear 1970 = 719528 := by decide
  have h10000 : daysToYear 10000 = 3652425 := by decide
  omega

theorem monthDay_bounds (l doy : Nat) (hl : l ≤ 1) (h : doy < 365 + l) :
    1 ≤ monthOfDoy l doy ∧ monthOfDoy l doy ≤ 12 ∧
    1 ≤ dayOfMonthOfDoy l doy ∧ dayOfMonthOfDoy l doy ≤ 31 := by
  unfold monthOfDoy dayOfMonthOfDoy
  by_cases h1 : doy < 31
  · simp only [if_pos h1]; omega
  simp only [if_neg h1]
  by_cases h2 : doy < 59 + l
  · simp only [if_pos h2]; omega
  simp only [if_neg h2]
  by_cases h3 : doy < 90 + l
  · simp only [if_pos h3]; omega
  simp only [if_neg h3]
  by_cases h4 : doy < 120 + l
  · simp only [if_pos h4]; omega
  simp only [if_neg h4]
  by_cases h5 : doy < 151 + l
  · simp only [if_pos h5]; omega
  simp only [if_neg h5]
  by_cases h6 : doy < 181 + l
  · simp only [if_pos h6]; omega
  simp only [if_neg h6]
  by_cases h7 : doy < 212 + l
  · simp only [if_pos h7]; omega
  simp only [if_neg h7]
  by_cases h8 : doy < 243 + l
  · simp only [if_pos h8]; omega
  simp only [if_neg h8]
  by_cases h9 : doy < 273 + l
  · simp only [if_pos h9]; omega
  simp only [if_neg h9]
  by_cases h10 : doy < 304 + l
  · simp only [if_pos h10]; omega
  simp only [if_neg h10]
  by_cases h11 : doy < 334 + l
  · simp only [if_pos h11]; omega
  simp only [if_neg h11]
  omega

theorem dtOfMicros_bounds (mu : Nat) (h : mu < 253402300800000000) :
    (dtOfMicros mu).year < 10000 ∧
    1 ≤ (dtOfMicros mu).month ∧ (dtOfMicros mu).month ≤ 12 ∧
    1 ≤ (dtOfMicros mu).day ∧ (dtOfMicros mu).day ≤ 31 ∧
    (dtOfMicros mu).hour < 24 ∧ (dtOfMicros mu).minute < 60 ∧
    (dtOfMicros mu).second < 60 ∧ (dtOfMicros mu).micros < 1000000 := by
  have hdays : mu / 1000000 / 86400 ≤ 2932896 := by omega
  have hyear := yearDoyOfDays_year_lt (mu / 1000000 / 86400) hdays
  have hdoy := yearDoyAux_doy_lt (mu / 1000000 / 86400) 1970
    (mu / 1000000 / 86400) (by omega)
  have hlo := leapOffset_le (yearDoyOfDays (mu / 1000000 / 86400)).1
  have heq := daysInYearN_eq_leapOffset (yearDoyOfDays (mu / 1000000 / 86400)).1
  have hdoy2 : (yearDoyOfDays (mu / 1000000 / 86400)).2 <
      365 + leapOffset (yearDoyOfDays (mu / 1000000 / 86400)).1 := by
    unfold yearDoyOfDays at *
    omega
  have hmd := monthDay_bounds (leapOffset (yearDoyOfDays (mu / 1000000 / 86400)).1)
    (yearDoyOfDays (mu / 1000000 / 86400)).2 hlo hdoy2
  simp only [dtOfMicros]
  refine ⟨hyear, hmd.1, hmd.2.1, hmd.2.2.1, hmd.2.2.2, ?_, ?_, ?_, ?_⟩ <;> omega

theorem decodeDigit_digitChar (k : Nat) (h : k < 10) :
    decodeDigit (Nat.digitChar k) = some k := by
  interval_cases k <;> decide

theorem decodeDigit_charOfDigit (d : Nat) :
    decodeDigit (charOfDigit d) = some (d % 10) := by
  unfold charOfDigit
  exact decodeDigit_digitChar _ (Nat.mod_lt _ (by omega))

theorem parseDT_pyRenderDT (dt : DateTime)
    (hy : dt.year < 10000) (hmo : dt.month < 100) (hd : dt.day < 100)
    (hh : dt.hour < 100) (hmi : dt.minute < 100) (hs : dt.second < 100)
    (hmc : dt.micros < 1000000) :
    parseDT (pyRenderDT dt) = some dt := by
  obtain ⟨y, mo, dd, hr, mi, sec, mc⟩ := dt
  simp only at hy hmo hd hh hmi hs hmc
  by_cases hmc0 : mc = 0
  · subst hmc0
    simp only [pyRenderDT, renderBaseDT, render4, p2, if_pos rfl, if_true,
      List.cons_append, List.nil_append, List.append_nil]
    simp only [parseDT, decodeDigit_charOfDigit]
    rw [if_pos ⟨trivial, trivial, trivial, trivial, trivial⟩]
    simp only [parseFrac, Option.some.injEq, DateTime.mk.injEq, and_true]
    omega
  · simp only [pyRenderDT, renderBaseDT, render4, p2, p6, if_neg hmc0,
      List.cons_append, List.nil_append, List.append_nil]
    simp only [parseDT, decodeDigit_charOfDigit]
    rw [if_pos ⟨trivial, trivial, trivial, trivial, trivial⟩]
    simp only [parseFrac, if_pos rfl, if_true, decodeDigit_charOfDigit,
      Option.some.injEq, DateTime.mk.injEq, and_true]
    omega

/-! ## Input records and output rows

Field names follow the column names of the script. -/

/-- Song-metadata input record (one JSON line under `song_data/`). -/
structure SongRecord where
  song_id : String
  title : String
  artist_id : String
  year : Nat
  duration : Rat
  artist_name : String
  artist_location : String
  artist_latitude : Rat
  artist_longitude : Rat
deriving DecidableEq, Repr

/-- Activity-log input record (one JSON line under `log_data/`). -/
structure LogRecord where
  ts : Nat
  userId : String
  level : String
  sessionId : Nat
  location : String
  userAgent : String
  firstName : String
  lastName : String
  gender : String
  song : String
  artist : String
deriving DecidableEq, Repr

/-- Row of the `songs` output table. -/
structure SongsRow where
  song_id : String
  title : String
  artist_id : String
  year : Nat
  duration : Rat
deriving DecidableEq, Repr

/-- Row of the `artists` output table. -/
structure ArtistsRow where
  artist_id : String
  artist_name : String
  artist_location : String
  artist_latitude : Rat
  artist_longitude : Rat
deriving DecidableEq, Repr

/-- Row of the `users` output table. -/
structure UsersRow where
  userId : String
  firstName : String
  lastName : String
  gender : String
  level : String
deriving DecidableEq, Repr

/-- Row of the `time` output table.  `start_time` is the datetime STRING the
Python UDF produced; the component columns come from Spark date functions
applied to that string column (null, i.e. `none`, if the cast fails). -/
structure TimeRow where
  start_time : List Char
  hour : Option Nat
  day : Option Nat
  week : Option Nat
  month : Option Nat
  year : Option Nat
deriving DecidableEq, Repr

/-- Row of the `songplays` fact table.  `start_time` here is a SQL timestamp
(microseconds since the epoch), produced by `to_timestamp(l.ts/1000)`. -/
structure SongplayRow where
  start_time : Nat
  month : Nat
  year : Nat
  user_id : String
  level : String
  song_id : String
  artist_id : String
  session_id : Nat
  location : String
  user_agent : String
deriving DecidableEq, Repr

/-- Spark `dropDuplicates` on one key column: keep one surviving row per key value
(modelled as keep-first; Spark keeps an arbitrary survivor). -/
def dedupBy {α β : Type} [DecidableEq β] (f : α → β) :
    List α → List β → List α
  | [], _ => []
  | x :: xs, seen =>
    if f x ∈ seen then dedupBy f xs seen
    else x :: dedupBy f xs (f x :: seen)

/-! ## The five tables, as the script builds them -/

/-- Projection of the song_id, title, artist_id, year and duration columns. -/
def songsRowOf (r : SongRecord) : SongsRow :=
  { song_id := r.song_id, title := r.title, artist_id := r.artist_id
  , year := r.year, duration := r.duration }

/-- The `songs` table: projection then dropDuplicates on song_id. -/
def songs_table_of (songs : List SongRecord) : List SongsRow :=
  dedupBy SongsRow.song_id (songs.map songsRowOf) []

/-- Projection of the artist columns. -/
def artistsRowOf (r : SongRecord) : ArtistsRow :=
  { artist_id := r.artist_id, artist_name := r.artist_name
  , artist_location := r.artist_location, artist_latitude := r.artist_latitude
  , artist_longitude := r.artist_longitude }

/-- The `artists` table: projection then dropDuplicates on artist_id. -/
def artists_table_of (songs : List SongRecord) : List ArtistsRow :=
  dedupBy ArtistsRow.artist_id (songs.map artistsRowOf) []

/-- Projection of the user columns. -/
def usersRowOf (l : LogRecord) : UsersRow :=
  { userId := l.userId, firstName := l.firstName, lastName := l.lastName
  , gender := l.gender, level := l.level }

/-- The `users` table: projection then dropDuplicates on userId. -/
def users_table_of (logs : List LogRecord) : List UsersRow :=
  dedupBy UsersRow.userId (logs.map usersRowOf) []

/-- One `time` row: `start_time` is the datetime string of the UDF; the other
columns are Spark `hour`/`dayofmonth`/`weekofyear`/`month`/`year` applied to
that string (cast to timestamp first, null on cast failure). -/
def time_row_of (ts : Nat) : TimeRow :=
  let s := pyGetDatetime ts
  { start_time := s
  , hour := (parseDT s).map DateTime.hour
  , day := (parseDT s).map DateTime.day
  , week := (parseDT s).map isoWeekOfDT
  , month := (parseDT s).map DateTime.month
  , year := (parseDT s).map DateTime.year }

/-- The `time` table: one row per log event, then
dropDuplicates on start_time. -/
def time_table_of (logs : List LogRecord) : List TimeRow :=
  dedupBy TimeRow.start_time (logs.map (fun l => time_row_of l.ts)) []

/-- SQL `to_timestamp(l.ts/1000)`: the epoch-milliseconds value as a SQL
timestamp in microseconds. -/
def toTimestampMicros (ts : Nat) : Nat := ts * 1000

/-- Modelled from the spec: the join the SQL text of the script describes, with
the two view names bound as intended (`l` to the log records, `s` to song
records carrying `artist_name` and `title`).  The script itself never
registers those views — and the re-read `songs` parquet has no
`artist_name` column — so this query never actually runs; it is the
reference semantics the spec states for the `songplays` table. -/
def songplaysQuery (logs : List LogRecord) (songs : List SongRecord) :
    List SongplayRow :=
  logs.flatMap (fun l =>
    (songs.filter (fun s => l.artist == s.artist_name && l.song == s.title)).map
      (fun s =>
        { start_time := toTimestampMicros l.ts
        , month := (dtOfMicros (toTimestampMicros l.ts)).month
        , year := (dtOfMicros (toTimestampMicros l.ts)).year
        , user_id := l.userId
        , level := l.level
        , song_id := s.song_id
        , artist_id := s.artist_id
        , session_id := l.sessionId
        , location := l.location
        , user_agent := l.userAgent }))

/-! ## The Spark session, the object store, and the two pipeline stages -/

/-- The Spark session state the script can observe: the set of registered
temporary view names.  The script never calls `createOrReplaceTempView`. -/
structure SparkSession where
  tempViews : List String
deriving DecidableEq, Repr

/-- Function `create_spark_session()`: a fresh session has no temp views. -/
def create_spark_session : SparkSession := { tempViews := [] }

/-- The object store: one optional content per output path.  `none` means
nothing has been written at that path yet; every write is a full
overwrite. -/
structure Store where
  songs_table : Option (List SongsRow)
  artists_table : Option (List ArtistsRow)
  users_table : Option (List UsersRow)
  time_table : Option (List TimeRow)
  songplays_table : Option (List SongplayRow)
deriving DecidableEq, Repr

/-- A store with no outputs written yet. -/
def emptyStore : Store :=
  { songs_table := none, artists_table := none, users_table := none
  , time_table := none, songplays_table := none }

/-- The error the Spark analyzer raises for the SQL statement of the script: the
statement reads `FROM log_table_view l JOIN song_table_view s`, and neither
view is ever registered. -/
def viewNotFoundErr : String :=
  "AnalysisException: Table or view not found: log_table_view"

/-- Error raised when the `songs` parquet path has never been written. -/
def songsPathErr : String := "AnalysisException: Path does not exist"

/-- Run the `spark.sql` songplays statement of the script.  Name resolution is
looked up in the temp views of the session; with the views missing the analyzer
fails, and even with them registered the re-read `songs` view would lack the
`s.artist_name` column the ON clause needs.  Either way the statement
errors; it never produces rows. -/
def sqlSongplays (sess : SparkSession) : Except String (List SongplayRow) :=
  if sess.tempViews.contains "log_table_view" &&
      sess.tempViews.contains "song_table_view" then
    Except.error
      "AnalysisException: cannot resolve s.artist_name given input columns: [song_id, title, artist_id, year, duration]"
  else Except.error viewNotFoundErr

/-- The projection `df['ts','userId','level','sessionId','location','userAgent']`
bound to `songplays_table` at the top of `process_log_data` and never read
again before the name is rebound to the SQL result. -/
def logProjection (logs : List LogRecord) :
    List (Nat × String × String × Nat × String × String) :=
  logs.map (fun l => (l.ts, l.userId, l.level, l.sessionId, l.location, l.userAgent))

/-- Stage `process_song_data`: build and overwrite the `songs` table, then
build and overwrite the `artists` table. -/
def process_song_data (songs : List SongRecord) (st : Store) : Store :=
  let songsT := songs_table_of songs
  let st1 := { st with songs_table := some songsT }
  let artistsT := artists_table_of songs
  { st1 with artists_table := some artistsT }

/-- Stage `process_log_data`: bind the (dead) raw projection, overwrite `users`,
overwrite `time`, re-read the `songs` parquet, then run the songplays SQL;
the SQL statement errors (unregistered views), so the run aborts with
`songplays` untouched. -/
def process_log_data (sess : SparkSession) (logs : List LogRecord)
    (st : Store) : Store × Except String Unit :=
  let _songplays_table := logProjection logs
  let st1 := { st with users_table := some (users_table_of logs) }
  let st2 := { st1 with time_table := some (time_table_of logs) }
  match st2.songs_table with
  | none => (st2, Except.error songsPathErr)
  | some _song_df =>
    match sqlSongplays sess with
    | Except.error e => (st2, Except.error e)
    | Except.ok sp => ({ st2 with songplays_table := some sp }, Except.ok ())

/-- Stage `process_log_data` with the dead intermediate projection removed, the
no-op treatment the spec prescribes for it. -/
def process_log_data_projection_removed (sess : SparkSession)
    (logs : List LogRecord) (st : Store) : Store × Except String Unit :=
  let st1 := { st with users_table := some (users_table_of logs) }
  let st2 := { st1 with time_table := some (time_table_of logs) }
  match st2.songs_table with
  | none => (st2, Except.error songsPathErr)
  | some _song_df =>
    match sqlSongplays sess with
    | Except.error e => (st2, Except.error e)
    | Except.ok sp => ({ st2 with songplays_table := some sp }, Except.ok ())

/-- The `main()` function of the script (Lean reserves the name `main` for executables):
build the session, run the song stage, then the log stage on the resulting
store. -/
def pipelineMain (songs : List SongRecord) (logs : List LogRecord) (st : Store) :
    Store × Except String Unit :=
  let spark := create_spark_session
  let st1 := process_song_data songs st
  process_log_data spark logs st1

/-! ## The startup configuration lines (etl.py lines 9-13) -/

/-- A Python value as far as the startup lines can observe one: either a
string or a configparser `SectionProxy`. -/
inductive PyVal where
  | str : String → PyVal
  | sectionProxy : List (String × String) → PyVal
deriving DecidableEq, Repr

/-- A parsed configuration file: named sections of key-value options. -/
structure ConfigParser where
  sections : List (String × List (String × String))
deriving DecidableEq, Repr

/-- configparser `config[k]`: the SECTION named `k` (a `SectionProxy`
object), or a `KeyError` if no such section exists.  Indexing a
`ConfigParser` never yields the string value of an option. -/
def configGetItem (c : ConfigParser) (k : String) : Except String PyVal :=
  match c.sections.find? (fun s => s.1 == k) with
  | some sec => Except.ok (PyVal.sectionProxy sec.2)
  | none => Except.error "KeyError"

/-- Assignment `os.environ[k] = v`: accepts only strings; assigning any other object
raises `TypeError: str expected`. -/
def environSet (env : List (String × String)) (k : String) (v : PyVal) :
    Except String (List (String × String)) :=
  match v with
  | PyVal.str s => Except.ok ((k, s) :: env.filter (fun p => p.1 != k))
  | PyVal.sectionProxy _ => Except.error "TypeError: str expected, not SectionProxy"

/-- Lines 12-13 of the script:
assigning the AWS_ACCESS_KEY_ID item of config to the os.environ entry, and the
secret-key twin. -/
def exportCredentials (cfg : ConfigParser) (env : List (String × String)) :
    Except String (List (String × String)) := do
  let v1 ← configGetItem cfg "AWS_ACCESS_KEY_ID"
  let env1 ← environSet env "AWS_ACCESS_KEY_ID" v1
  let v2 ← configGetItem cfg "AWS_SECRET_ACCESS_KEY"
  environSet env1 "AWS_SECRET_ACCESS_KEY" v2

/-! ## Concrete example records (the example scenario of the spec) -/

/-- The example log record of the spec. -/
def exampleLog : LogRecord :=
  { ts := 1542242481796, userId := "26", level := "free", sessionId := 583
  , location := "Houston", userAgent := "Mozilla", firstName := ""
  , lastName := "", gender := "", song := "You Gotta Be"
  , artist := "Des\x27ree" }

/-- The example matching song record of the spec. -/
def exampleSong : SongRecord :=
  { song_id := "SOxxx", title := "You Gotta Be", artist_id := "ARxxx"
  , year := 1998, duration := 240, artist_name := "Des\x27ree"
  , artist_location := "", artist_latitude := 0, artist_longitude := 0 }

/-- A log event naming a song/artist pair absent from the song records. -/
def unmatchedLog : LogRecord :=
  { ts := 1542242481796, userId := "26", level := "free", sessionId := 583
  , location := "Houston", userAgent := "Mozilla", firstName := ""
  , lastName := "", gender := "", song := "Smooth Criminal"
  , artist := "Michael Jackson" }

/-! ## Deduplication lemmas -/

theorem dedupBy_map_nodup {α β : Type} [DecidableEq β] (f : α → β) :
    ∀ (xs : List α) (seen : List β),
      ((dedupBy f xs seen).map f).Nodup ∧
      ∀ a ∈ dedupBy f xs seen, f a ∉ seen := by
  intro xs
  induction xs with
  | nil => intro seen; simp [dedupBy]
  | cons x xs ih =>
    intro seen
    by_cases h : f x ∈ seen
    · simp only [dedupBy, if_pos h]
      exact ih seen
    · simp only [dedupBy, if_neg h, List.map_cons, List.nodup_cons]
      obtain ⟨h1, h2⟩ := ih (f x :: seen)
      refine ⟨⟨?_, h1⟩, ?_⟩
      · intro hmem
        rw [List.mem_map] at hmem
        obtain ⟨a, ha, hfa⟩ := hmem
        have hnotin := h2 a ha
        rw [List.mem_cons] at hnotin
        push_neg at hnotin
        exact hnotin.1 hfa
      · intro a ha
        rcases List.mem_cons.mp ha with rfl | ha2
        · exact h
        · have hnotin := h2 a ha2
          rw [List.mem_cons] at hnotin
          push_neg at hnotin
          exact hnotin.2
  
theorem dedupBy_subset {α β : Type} [DecidableEq β] (f : α → β) :
    ∀ (xs : List α) (seen : List β) (a : α), a ∈ dedupBy f xs seen → a ∈ xs := by
  intro xs
  induction xs with
  | nil => intro seen a ha; simp [dedupBy] at ha
  | cons x xs ih =>
    intro seen a ha
    by_cases h : f x ∈ seen
    · simp only [dedupBy, if_pos h] at ha
      exact List.mem_cons_of_mem _ (ih seen a ha)
    · simp only [dedupBy, if_neg h] at ha
      rcases List.mem_cons.mp ha with rfl | ha2
      · exact List.mem_cons_self _ _
      · exact List.mem_cons_of_mem _ (ih (f x :: seen) a ha2)

/-- C3: each dimension table is deduplicated on its natural key: the songs
output has at most one row per `song_id`, the artists output at most one per
`artist_id`, and the users output at most one per `userId`. -/
theorem c3_dimension_tables_dedup_on_natural_key
    (songs : List SongRecord) (logs : List LogRecord) :
    ((songs_table_of songs).map SongsRow.song_id).Nodup ∧
    ((artists_table_of songs).map ArtistsRow.artist_id).Nodup ∧
    ((users_table_of logs).map UsersRow.userId).Nodup :=
  ⟨(dedupBy_map_nodup _ _ _).1, (dedupBy_map_nodup _ _ _).1,
   (dedupBy_map_nodup _ _ _).1⟩

/-- C4: in the time table, `start_time` is unique across rows, and the
hour/day/week/month/year columns are the calendar components of the datetime
that the `start_time` string of the row denotes. -/
theorem c4_time_table_start_time_unique_and_consistent
    (logs : List LogRecord) (hb : ∀ l ∈ logs, l.ts < 253402300800000) :
    ((time_table_of logs).map TimeRow.start_time).Nodup ∧
    ∀ row ∈ time_table_of logs, ∃ dt : DateTime,
      parseDT row.start_time = some dt ∧
      row.hour = some dt.hour ∧ row.day = some dt.day ∧
      row.week = some (isoWeekOfDT dt) ∧ row.month = some dt.month ∧
      row.year = some dt.year := by
  constructor
  · exact (dedupBy_map_nodup _ _ _).1
  · intro row hrow
    have hsub := dedupBy_subset _ _ _ _ hrow
    rw [List.mem_map] at hsub
    obtain ⟨l, hl, hrow_eq⟩ := hsub
    have hts := hb l hl
    have hmu : l.ts * 1000 < 253402300800000000 := by omega
    have hbd : (dtOfMillis l.ts).year < 10000 ∧
        1 ≤ (dtOfMillis l.ts).month ∧ (dtOfMillis l.ts).month ≤ 12 ∧
        1 ≤ (dtOfMillis l.ts).day ∧ (dtOfMillis l.ts).day ≤ 31 ∧
        (dtOfMillis l.ts).hour < 24 ∧ (dtOfMillis l.ts).minute < 60 ∧
        (dtOfMillis l.ts).second < 60 ∧ (dtOfMillis l.ts).micros < 1000000 :=
      dtOfMicros_bounds (l.ts * 1000) hmu
    have hparse : parseDT (pyGetDatetime l.ts) = some (dtOfMillis l.ts) := by
      unfold pyGetDatetime
      exact parseDT_pyRenderDT (dtOfMillis l.ts) hbd.1 (by omega) (by omega)
        (by omega) (by omega) (by omega) (by omega)
    subst hrow_eq
    exact ⟨dtOfMillis l.ts, by simp [time_row_of, hparse]⟩

def ts20230315 : Nat := (daysFromCivil 2023 3 15 * 86400 + 10 * 3600) * 1000

def log20230315 : LogRecord :=
  { ts := ts20230315, userId := "8", level := "free", sessionId := 1
  , location := "", userAgent := "", firstName := "", lastName := ""
  , gender := "", song := "", artist := "" }

/-- Witness for C4 at the example instant 2023-03-15T10:00:00 of the spec. -/
theorem c4_witness :
    (∀ l ∈ [log20230315], l.ts < 253402300800000) ∧
    (((time_table_of [log20230315]).map TimeRow.start_time).Nodup ∧
      ∀ row ∈ time_table_of [log20230315], ∃ dt : DateTime,
        parseDT row.start_time = some dt ∧
        row.hour = some dt.hour ∧ row.day = some dt.day ∧
        row.week = some (isoWeekOfDT dt) ∧ row.month = some dt.month ∧
        row.year = some dt.year) ∧
    (dtOfMillis ts20230315).hour = 10 ∧ (dtOfMillis ts20230315).day = 15 ∧
    (dtOfMillis ts20230315).month = 3 ∧ (dtOfMillis ts20230315).year = 2023 :=
  ⟨by decide, c4_time_table_start_time_unique_and_consistent [log20230315]
      (by decide),
   by decide, by decide, by decide, by decide⟩

/-- C9: the intermediate raw-column projection bound to `songplays_table`
before the join query is dead code: removing it leaves the behaviour of the
log stage unchanged on every input and store. -/
theorem c9_dead_projection_is_no_op (sess : SparkSession)
    (logs : List LogRecord) (st : Store) :
    process_log_data sess logs st =
      process_log_data_projection_removed sess logs st := rfl

/-- C1 (code bug): the join query of the log stage never succeeds: on every run
the SQL statement fails to resolve its unregistered temp views, the stage
aborts, and the songplays output is never written. -/
theorem c1_join_query_always_aborts
    (songs : List SongRecord) (logs : List LogRecord) (st : Store) :
    (pipelineMain songs logs st).2 = Except.error viewNotFoundErr ∧
    (pipelineMain songs logs st).1.songplays_table = st.songplays_table :=
  ⟨rfl, rfl⟩

/-- C2 counterexample: a concrete run in which the log stage has overwritten
its users and time outputs, has not produced its songplays output, and has
aborted the run: a state the claim says cannot exist. -/
theorem c2_counterexample_partially_overwritten_stage :
    (pipelineMain [exampleSong] [exampleLog] emptyStore).1.users_table =
      some (users_table_of [exampleLog]) ∧
    (pipelineMain [exampleSong] [exampleLog] emptyStore).1.time_table =
      some (time_table_of [exampleLog]) ∧
    (pipelineMain [exampleSong] [exampleLog] emptyStore).1.songplays_table =
      none ∧
    (pipelineMain [exampleSong] [exampleLog] emptyStore).2 =
      Except.error viewNotFoundErr :=
  ⟨rfl, rfl, rfl, rfl⟩

/-- C2 amended: each table write is an indivisible full overwrite, but a
stage writes its tables sequentially; the log stage always overwrites users
and time and then aborts, leaving songplays untouched. -/
theorem c2_amended_stage_writes_sequential (logs : List LogRecord) (st : Store) :
    (process_log_data create_spark_session logs st).1.users_table =
      some (users_table_of logs) ∧
    (process_log_data create_spark_session logs st).1.time_table =
      some (time_table_of logs) ∧
    (process_log_data create_spark_session logs st).1.songplays_table =
      st.songplays_table ∧
    ∃ e, (process_log_data create_spark_session logs st).2 = Except.error e := by
  rcases hst : st.songs_table with _ | sdf <;>
    simp [process_log_data, sqlSongplays, create_spark_session, hst]

/-- C5 (code bug): every write overwrites, so a second run on unchanged
input reproduces the store of the first run exactly; but the songplays output is
never produced at all, because every run aborts at the songplays query. -/
theorem c5_second_run_reproduces_store_but_songplays_never_written
    (songs : List SongRecord) (logs : List LogRecord) (st : Store) :
    (pipelineMain songs logs (pipelineMain songs logs st).1).1 =
      (pipelineMain songs logs st).1 ∧
    (pipelineMain songs logs st).1.songplays_table = st.songplays_table :=
  ⟨rfl, rfl⟩

/-- C6 (code bug): the example event matches a song record verbatim and the
unmatched event matches none, so the join semantics the spec states would keep
exactly one fact row for the former and none for the latter; but the run
aborts at the songplays query and no songplays output exists at all. -/
theorem c6_matched_event_yields_no_fact_row_because_run_aborts :
    exampleLog.artist = exampleSong.artist_name ∧
    exampleLog.song = exampleSong.title ∧
    (songplaysQuery [exampleLog] [exampleSong]).length = 1 ∧
    songplaysQuery [unmatchedLog] [exampleSong] = [] ∧
    (pipelineMain [exampleSong] [exampleLog] emptyStore).1.songplays_table =
      none ∧
    (pipelineMain [exampleSong] [exampleLog] emptyStore).2 =
      Except.error viewNotFoundErr :=
  ⟨rfl, rfl, by decide, rfl, rfl, rfl⟩

/-- C7 (code bug): on the example scenario of the spec the run aborts at the
songplays query; the join the SQL text describes would have produced
exactly the one row the spec states (start_time from epoch instant
1542242481.796 s, month 11, year 2018). -/
theorem c7_example_scenario_aborts_but_intended_row_matches_spec :
    (pipelineMain [exampleSong] [exampleLog] emptyStore).2 =
      Except.error viewNotFoundErr ∧
    songplaysQuery [exampleLog] [exampleSong] =
      [{ start_time := 1542242481796000, month := 11, year := 2018
       , user_id := "26", level := "free", song_id := "SOxxx"
       , artist_id := "ARxxx", session_id := 583, location := "Houston"
       , user_agent := "Mozilla" }] :=
  ⟨rfl, by decide⟩

/-- C8 (code bug): the startup lines index the parser at the credential
names, which in configparser addresses a SECTION, never the string
value; assigning the resulting object to `os.environ` raises TypeError, and
a missing section raises KeyError.  For every configuration file and
environment the export fails; the credential values are never exported. -/
theorem c8_credential_export_always_fails
    (cfg : ConfigParser) (env : List (String × String)) :
    ∃ e, exportCredentials cfg env = Except.error e := by
  unfold exportCredentials configGetItem
  rcases h : cfg.sections.find? (fun s => s.1 == "AWS_ACCESS_KEY_ID") with _ | sec <;>
    simp only [h]
  · exact ⟨"KeyError", rfl⟩
  · exact ⟨"TypeError: str expected, not SectionProxy", rfl⟩

theorem length_dropWhile_zero_le (l : List Char) :
    (List.dropWhile (fun c => c == '0') l).length ≤ l.length := by
  induction l with
  | nil => simp [List.dropWhile]
  | cons a t ih =>
    by_cases h : (a == '0') = true
    · rw [List.dropWhile, h]
      simp only [List.length_cons]
      omega
    · rw [List.dropWhile]
      rw [Bool.not_eq_true] at h
      rw [h]

/-- C10: for an event with a fractional millisecond part, the start_time
string the time table stores (six-digit microsecond rendering from the
Python UDF) differs from the rendering of the SQL timestamp the songplays
table stores for the same event; the two columns are produced by different
computations in different representations and do not referentially match. -/
theorem c10_time_key_and_fact_start_time_diverge (ts : Nat)
    (h : ts % 1000 ≠ 0) :
    (time_row_of ts).start_time ≠
      sparkTimestampToString (toTimestampMicros ts) := by
  have hmic : (dtOfMillis ts).micros = ts % 1000 * 1000 := by
    show (dtOfMicros (ts * 1000)).micros = ts % 1000 * 1000
    simp only [dtOfMicros]
    omega
  have hmic_ne : (dtOfMillis ts).micros ≠ 0 := by rw [hmic]; omega
  have hpy : (time_row_of ts).start_time =
      renderBaseDT (dtOfMillis ts) ++ '.' :: p6 (ts % 1000 * 1000) := by
    show pyRenderDT (dtOfMillis ts) = _
    unfold pyRenderDT
    rw [if_neg hmic_ne, hmic]
  have hp6 : p6 (ts % 1000 * 1000) =
      [charOfDigit (ts % 1000 * 1000 / 100000),
       charOfDigit (ts % 1000 * 1000 / 10000),
       charOfDigit (ts % 1000 * 1000 / 1000), '0', '0', '0'] := by
    unfold p6
    rw [show charOfDigit (ts % 1000 * 1000 / 100) = '0' from by
          unfold charOfDigit
          rw [show ts % 1000 * 1000 / 100 % 10 = 0 from by omega]
          decide,
        show charOfDigit (ts % 1000 * 1000 / 10) = '0' from by
          unfold charOfDigit
          rw [show ts % 1000 * 1000 / 10 % 10 = 0 from by omega]
          decide,
        show charOfDigit (ts % 1000 * 1000) = '0' from by
          unfold charOfDigit
          rw [show ts % 1000 * 1000 % 10 = 0 from by omega]
          decide]
  have hflen : (dropTrailingZeros (p6 (ts % 1000 * 1000))).length ≤ 3 := by
    rw [hp6]
    unfold dropTrailingZeros
    have hrev : ([charOfDigit (ts % 1000 * 1000 / 100000),
        charOfDigit (ts % 1000 * 1000 / 10000),
        charOfDigit (ts % 1000 * 1000 / 1000), '0', '0', '0'] :
          List Char).reverse =
        ['0', '0', '0', charOfDigit (ts % 1000 * 1000 / 1000),
         charOfDigit (ts % 1000 * 1000 / 10000),
         charOfDigit (ts % 1000 * 1000 / 100000)] := by rfl
    rw [hrev]
    have hstep : ∀ l : List Char,
        List.dropWhile (fun c => c == '0') ('0' :: l) =
          List.dropWhile (fun c => c == '0') l := fun l => rfl
    rw [hstep, hstep, hstep, List.length_reverse]
    have := length_dropWhile_zero_le
      [charOfDigit (ts % 1000 * 1000 / 1000),
       charOfDigit (ts % 1000 * 1000 / 10000),
       charOfDigit (ts % 1000 * 1000 / 100000)]
    simpa using this
  have hmod : toTimestampMicros ts % 1000000 = ts % 1000 * 1000 := by
    unfold toTimestampMicros
    omega
  intro heq
  rw [hpy] at heq
  have hsTS : sparkTimestampToString (toTimestampMicros ts) =
      renderBaseDT (dtOfMicros (toTimestampMicros ts)) ++
        (if dropTrailingZeros (p6 (toTimestampMicros ts % 1000000)) = [] then []
         else '.' :: dropTrailingZeros (p6 (toTimestampMicros ts % 1000000))) :=
    rfl
  rw [hsTS, hmod] at heq
  by_cases hfe : dropTrailingZeros (p6 (ts % 1000 * 1000)) = []
  · rw [if_pos hfe] at heq
    have hlen := congrArg List.length heq
    simp only [List.length_append, List.length_cons, List.append_nil] at hlen
    have hbase : renderBaseDT (dtOfMicros (toTimestampMicros ts)) =
        renderBaseDT (dtOfMillis ts) := rfl
    rw [hbase] at hlen
    have hlp6 : (p6 (ts % 1000 * 1000)).length = 6 := rfl
    omega
  · rw [if_neg hfe] at heq
    have hlen := congrArg List.length heq
    simp only [List.length_append, List.length_cons] at hlen
    have hbase : renderBaseDT (dtOfMicros (toTimestampMicros ts)) =
        renderBaseDT (dtOfMillis ts) := rfl
    rw [hbase] at hlen
    have hlp6 : (p6 (ts % 1000 * 1000)).length = 6 := rfl
    omega

/-- Witness for C10 at the example timestamp of the spec. -/
theorem c10_witness :
    1542242481796 % 1000 ≠ 0 ∧
    (time_row_of 1542242481796).start_time ≠
      sparkTimestampToString (toTimestampMicros 1542242481796) :=
  ⟨by decide, c10_time_key_and_fact_start_time_diverge 1542242481796 (by decide)⟩
